import Mathlib

/-!
Shallow embedding of the reservation backend (Express + PostgreSQL service,
latest variant: the one with admin auth, pricing and cancellation).

The persistent store (`reservas` and `precios` tables) is modelled as lists of
rows; the in-memory admin token set as a list of strings; each HTTP handler as
a pure function from the request and the store to a response and the new store.
JS truthiness checks on request fields are modelled over `Option String`
(`none` = field absent from the JSON body), and the JS string operations used
by token extraction (`String.prototype.replace` with a string pattern, which
replaces only the first occurrence, and `String.prototype.trim`) are modelled
explicitly on `List Char`.
-/

namespace Reserva

/-- Response kinds of the service, tagged with the HTTP status each maps to. -/
inductive ApiRes (α : Type) where
  | ok (a : α)
  | badRequest
  | unauthorized
  | conflict
  | internalError
deriving Repr, DecidableEq

/-- HTTP status code of a response, as the handlers emit them. -/
def ApiRes.status : ApiRes α → Nat
  | .ok _ => 200
  | .badRequest => 400
  | .unauthorized => 401
  | .conflict => 409
  | .internalError => 500

/-- One row of the `reservas` table. -/
structure Row where
  id : Nat
  nombre : String
  apellido : String
  whatsapp : String
  deporte : String
  cancha : String
  fecha : String
  horario : String
  precio : Int
  estado : String
  fecha_creacion : Nat
deriving Repr, DecidableEq

/-- One row of the `precios` table. -/
structure PrecioRow where
  cancha : String
  precio : Int
  actualizado : Nat
deriving Repr, DecidableEq

/-- The persistent store: both tables plus the `SERIAL` id counter. -/
structure DB where
  reservas : List Row
  precios : List PrecioRow
  nextId : Nat
deriving Repr, DecidableEq

/-- JS truthiness of an optional string field: `!x` is true when the field is
absent (`undefined`) or the empty string. -/
def falsy : Option String → Bool
  | none => true
  | some s => s == ""

/-- Remove the first occurrence of `pat` from a character list, as JS
`str.replace(pat, '')` does with a string pattern (first occurrence only). -/
def removeFirst (pat : List Char) : List Char → List Char
  | [] => []
  | c :: cs =>
    if pat.isPrefixOf (c :: cs) then (c :: cs).drop pat.length
    else c :: removeFirst pat cs

/-- Whitespace as JS `String.prototype.trim` strips it: tab, line feed,
vertical tab, form feed, carriage return, space, no-break space. -/
def jsWhitespace (c : Char) : Bool :=
  c == '\x09' || c == '\x0a' || c == '\x0b' || c == '\x0c' || c == '\x0d' ||
  c == '\x20' || c == '\xa0'

/-- JS `str.trim()`: drop leading and trailing whitespace. -/
def jsTrim (l : List Char) : List Char :=
  ((l.dropWhile jsWhitespace).reverse.dropWhile jsWhitespace).reverse

/-- Token extraction `auth.replace('Bearer ', '').trim()` from `validarToken`. -/
def extractToken (auth : String) : String :=
  ⟨jsTrim (removeFirst ("Bearer ".data) auth.data)⟩

/-- Gate check `validarToken(req)`: the header (or `''` when absent) with the first
`'Bearer '` removed and trimmed must be in the live token set. -/
def validarToken (tokens : List String) (auth : Option String) : Bool :=
  tokens.contains (extractToken (auth.getD ""))

/-- Middleware `requireAdmin`: run the handler only if the token validates,
otherwise answer 401 and leave the store untouched. -/
def requireAdmin (tokens : List String) (auth : Option String) (db : DB)
    (handler : DB → ApiRes α × DB) : ApiRes α × DB :=
  if validarToken tokens auth then handler db else (.unauthorized, db)

/-- The `WHERE cancha = $1 AND fecha = $2 AND horario = $3 AND
estado != 'cancelada'` occupancy check of `POST /reservar`. -/
def slotOccupied (db : DB) (c f h : String) : Bool :=
  db.reservas.any fun r =>
    r.cancha == c && r.fecha == f && r.horario == h && r.estado != "cancelada"

/-- Request body of `POST /reservar`; `none` models an absent JSON field. -/
structure ReservarReq where
  nombre : Option String
  apellido : Option String
  whatsapp : Option String
  deporte : Option String
  cancha : Option String
  fecha : Option String
  horario : Option String
  precio : Option Int
deriving Repr, DecidableEq

/-- Outcome of `POST /reservar`: response, resulting store, and the outbound
webhook attempts made (each recorded with whether that attempt failed). -/
structure ReservarOut where
  res : ApiRes Nat
  db : DB
  webhookAttempts : List Bool
deriving Repr, DecidableEq

/-- The row the `INSERT INTO reservas` of `POST /reservar` writes, once the
`NOT NULL` columns `deporte` and `precio` are known to be non-null; `estado`
and `fecha_creacion` come from the column defaults. -/
def newRow (db : DB) (req : ReservarReq) (now : Nat) (d : String) (p : Int) :
    Row :=
  { id := db.nextId, nombre := req.nombre.getD "",
    apellido := req.apellido.getD "", whatsapp := req.whatsapp.getD "",
    deporte := d, cancha := req.cancha.getD "", fecha := req.fecha.getD "",
    horario := req.horario.getD "", precio := p, estado := "confirmada",
    fecha_creacion := now }

/-- Column constraints the `INSERT INTO reservas` is subject to, from the
schema `initDB` creates: `nombre`, `apellido`, `cancha`, `fecha` are
`VARCHAR(100)`, `whatsapp` is `VARCHAR(30)`, `deporte` is `VARCHAR(50)`,
`horario` is `VARCHAR(10)`, and `precio` is `INTEGER` (int4). A value outside
these bounds makes the insert throw ("value too long" / out of range), which
the handler's catch maps to a 500 with no row written. (The varchar corner
where the excess characters are all spaces and Postgres truncates instead of
erroring is collapsed into the error branch here; no theorem below touches
that corner — each either assumes the bounds or never reaches the insert.) -/
def fitsColumns (req : ReservarReq) (d : String) (p : Int) : Bool :=
  decide ((req.nombre.getD "").length ≤ 100) &&
  decide ((req.apellido.getD "").length ≤ 100) &&
  decide ((req.whatsapp.getD "").length ≤ 30) &&
  decide (d.length ≤ 50) &&
  decide ((req.cancha.getD "").length ≤ 100) &&
  decide ((req.fecha.getD "").length ≤ 100) &&
  decide ((req.horario.getD "").length ≤ 10) &&
  decide ((-2147483648 : Int) ≤ p) && decide (p ≤ (2147483647 : Int))

/-- Handler of `POST /reservar`: validate the six required fields by
truthiness, check occupancy, insert (the insert throws — caught as a 500 —
when a `NOT NULL` column, `deporte` or `precio`, would be null, or when a
value violates its column's length or range bounds), then fire the webhook at
most once if configured; the webhook outcome is swallowed. -/
def reservar (db : DB) (req : ReservarReq) (now : Nat)
    (webhookConfigured webhookFails : Bool) : ReservarOut :=
  if falsy req.nombre || falsy req.apellido || falsy req.whatsapp ||
      falsy req.cancha || falsy req.fecha || falsy req.horario then
    ⟨.badRequest, db, []⟩
  else if slotOccupied db (req.cancha.getD "") (req.fecha.getD "")
      (req.horario.getD "") then
    ⟨.conflict, db, []⟩
  else
    match req.deporte, req.precio with
    | some d, some p =>
      if fitsColumns req d p then
        ⟨.ok db.nextId,
         { db with
           reservas := db.reservas ++ [newRow db req now d p],
           nextId := db.nextId + 1 },
         if webhookConfigured then [webhookFails] else []⟩
      else ⟨.internalError, db, []⟩
    | _, _ => ⟨.internalError, db, []⟩

/-- The row list `SELECT horario FROM reservas WHERE cancha = $1 AND
fecha = $2 AND estado != 'cancelada'` produces, in store order. -/
def occupiedList (db : DB) (c f : String) : List String :=
  (db.reservas.filter fun r =>
    r.cancha == c && r.fecha == f && r.estado != "cancelada").map (·.horario)

/-- Handler of `GET /disponibilidad`: require both query params truthy, then return the
occupied horarios; read-only, so the store is returned unchanged. -/
def disponibilidad (db : DB) (cancha fecha : Option String) :
    ApiRes (List String) × DB :=
  if falsy cancha || falsy fecha then (.badRequest, db)
  else (.ok (occupiedList db (cancha.getD "") (fecha.getD "")), db)

/-- Handler body of `POST /cancelar/:id` (after the admin gate):
`UPDATE reservas SET estado = 'cancelada' WHERE id = $1`, then `{ok:true}`
unconditionally. -/
def cancelarCore (db : DB) (id : Nat) : ApiRes Unit × DB :=
  (.ok (),
   { db with reservas := db.reservas.map fun r =>
       if r.id == id then { r with estado := "cancelada" } else r })

/-- Route `POST /cancelar/:id` with its `requireAdmin` gate. -/
def cancelar (tokens : List String) (auth : Option String) (db : DB)
    (id : Nat) : ApiRes Unit × DB :=
  requireAdmin tokens auth db (fun db => cancelarCore db id)

/-- Handler body of `POST /admin/precios` (after the admin gate): 400 when
`!cancha || precio === undefined`, else
`UPDATE precios SET precio = $1, actualizado = NOW() WHERE cancha = $2`. -/
def setPrecioCore (db : DB) (cancha : Option String) (precio : Option Int)
    (now : Nat) : ApiRes Unit × DB :=
  if falsy cancha || precio.isNone then (.badRequest, db)
  else
    (.ok (),
     { db with precios := db.precios.map fun r =>
         if r.cancha == cancha.getD "" then
           { r with precio := precio.getD 0, actualizado := now }
         else r })

/-- Route `POST /admin/precios` with its `requireAdmin` gate. -/
def setPrecio (tokens : List String) (auth : Option String) (db : DB)
    (cancha : Option String) (precio : Option Int) (now : Nat) :
    ApiRes Unit × DB :=
  requireAdmin tokens auth db (fun db => setPrecioCore db cancha precio now)

/-- Handler body of `GET /reservas` (after the admin gate): the rows ordered
by creation time descending, limited to 500; read-only. -/
def reservasCore (db : DB) : ApiRes (List Row) × DB :=
  (.ok (((db.reservas.mergeSort fun a b => b.fecha_creacion ≤ a.fecha_creacion
    ).take 500)), db)

/-- Route `GET /reservas` with its `requireAdmin` gate. -/
def getReservas (tokens : List String) (auth : Option String) (db : DB) :
    ApiRes (List Row) × DB :=
  requireAdmin tokens auth db reservasCore

/-- Hex digits: the alphabet of `crypto.randomBytes(32).toString('hex')`,
the generator of every token that enters the live set. -/
def isHexChar (c : Char) : Bool :=
  ('0' ≤ c && c ≤ '9') || ('a' ≤ c && c ≤ 'f')

/-- A string made only of hex digits, as `generarToken` yields. -/
def isHexString (s : String) : Bool :=
  s.data.all isHexChar

/-! Concrete fixtures used to instantiate the theorems below. -/

/-- A sample stored row for slot (`c`, `f`, `h`) with status `est`. -/
def mkRow (id : Nat) (c f h est : String) : Row :=
  { id := id, nombre := "Ana", apellido := "Gomez", whatsapp := "111",
    deporte := "futbol", cancha := c, fecha := f, horario := h, precio := 100,
    estado := est, fecha_creacion := id }

/-- Empty store. -/
def dbEmpty : DB := { reservas := [], precios := [], nextId := 1 }

/-- Store holding one confirmed reservation for slot ("C", "F", "H"). -/
def dbOcc : DB :=
  { reservas := [mkRow 1 "C" "F" "H" "confirmada"], precios := [], nextId := 2 }

/-- Store with duplicate confirmed rows for the same slot, one cancelled row
and one row for another cancha. -/
def dbDup : DB :=
  { reservas := [mkRow 1 "C" "F" "18:00" "confirmada",
                 mkRow 2 "C" "F" "18:00" "confirmada",
                 mkRow 3 "C" "F" "19:00" "cancelada",
                 mkRow 4 "D" "F" "20:00" "confirmada"],
    precios := [], nextId := 5 }

/-- Store with one seeded price row. -/
def dbPrecios : DB :=
  { reservas := [],
    precios := [{ cancha := "Pádel 1", precio := 8000, actualizado := 0 }],
    nextId := 1 }

/-- A well-formed reservation request for slot ("C", "F", "H"). -/
def reqFull : ReservarReq :=
  { nombre := some "Ana", apellido := some "Gomez", whatsapp := some "111",
    deporte := some "futbol", cancha := some "C", fecha := some "F",
    horario := some "H", precio := some 100 }

/-- Request `reqFull` with `nombre` absent from the body. -/
def reqNoNombre : ReservarReq := { reqFull with nombre := none }

/-- Request `reqFull` with `deporte` absent from the body. -/
def reqNoDeporte : ReservarReq := { reqFull with deporte := none }

/-! Helper lemmas about the string model and list updates. -/

theorem removeFirst_eq_self {p : Char} {ps : List Char} :
    ∀ {l : List Char}, (∀ c ∈ l, c ≠ p) → removeFirst (p :: ps) l = l
  | [], _ => rfl
  | c :: cs, h => by
    have hc : c ≠ p := h c (List.mem_cons_self ..)
    have hpre : (p :: ps).isPrefixOf (c :: cs) = false := by
      simp [List.isPrefixOf]
      intro hpc
      exact absurd hpc.symm hc
    rw [removeFirst, hpre]
    simp only [Bool.false_eq_true, if_false]
    rw [removeFirst_eq_self fun x hx => h x (List.mem_cons_of_mem _ hx)]

theorem dropWhile_eq_self {q : Char → Bool} : ∀ {l : List Char},
    (∀ c ∈ l, q c = false) → l.dropWhile q = l
  | [], _ => rfl
  | c :: cs, h => by
    rw [List.dropWhile_cons, h c (List.mem_cons_self ..)]
    simp

theorem jsTrim_eq_self {l : List Char}
    (h : ∀ c ∈ l, jsWhitespace c = false) : jsTrim l = l := by
  rw [jsTrim, dropWhile_eq_self h,
    dropWhile_eq_self fun c hc => h c (List.mem_reverse.mp hc),
    List.reverse_reverse]

theorem map_if_eq_self {α : Type} {p : α → Bool} {f : α → α} {l : List α}
    (h : ∀ r ∈ l, p r = false) :
    (l.map fun r => if p r then f r else r) = l := by
  conv_rhs => rw [← List.map_id l]
  refine List.map_congr_left fun a ha => ?_
  rw [h a ha]
  simp

theorem isHexChar_ne {c : Char} (h : isHexChar c = true) :
    c ≠ 'B' ∧ jsWhitespace c = false := by
  constructor
  · rintro rfl
    exact absurd h (by decide)
  · cases hjs : jsWhitespace c
    · rfl
    · exfalso
      simp only [jsWhitespace, Bool.or_eq_true, beq_iff_eq] at hjs
      rcases hjs with ((((((hw | hw) | hw) | hw) | hw) | hw) | hw) <;>
        subst hw <;> exact absurd h (by decide)

theorem extractToken_eq_self {t : String} (h : isHexString t = true) :
    extractToken t = t := by
  have hall : ∀ c ∈ t.data, isHexChar c = true := by
    simpa [isHexString, List.all_eq_true] using h
  have h1 : removeFirst ("Bearer ".data) t.data = t.data := by
    have hB : "Bearer ".data = 'B' :: "earer ".data := rfl
    rw [hB]
    exact removeFirst_eq_self fun c hc => (isHexChar_ne (hall c hc)).1
  have h2 : jsTrim t.data = t.data :=
    jsTrim_eq_self fun c hc => (isHexChar_ne (hall c hc)).2
  show (⟨jsTrim (removeFirst ("Bearer ".data) t.data)⟩ : String) = t
  rw [h1, h2]

theorem cancelState_idem (l : List Row) (id : Nat) :
    ((l.map fun r => if r.id == id then { r with estado := "cancelada" }
        else r).map
      fun r => if r.id == id then { r with estado := "cancelada" } else r) =
    l.map fun r => if r.id == id then { r with estado := "cancelada" }
      else r := by
  rw [List.map_map]
  refine List.map_congr_left fun r _ => ?_
  simp only [Function.comp_apply]
  by_cases h : r.id == id <;> simp [h]

theorem reservar_insert_eq (db : DB) (req : ReservarReq) (now : Nat)
    (wc wf : Bool) (d : String) (p : Int)
    (hv : (falsy req.nombre || falsy req.apellido || falsy req.whatsapp ||
      falsy req.cancha || falsy req.fecha || falsy req.horario) = false)
    (hocc : slotOccupied db (req.cancha.getD "") (req.fecha.getD "")
      (req.horario.getD "") = false)
    (hd : req.deporte = some d) (hp : req.precio = some p)
    (hfits : fitsColumns req d p = true) :
    reservar db req now wc wf =
      ⟨.ok db.nextId,
       { db with
         reservas := db.reservas ++ [newRow db req now d p],
         nextId := db.nextId + 1 },
       if wc then [wf] else []⟩ := by
  simp only [Bool.or_eq_false_iff] at hv
  obtain ⟨⟨⟨⟨⟨h1, h2⟩, h3⟩, h4⟩, h5⟩, h6⟩ := hv
  simp [reservar, h1, h2, h3, h4, h5, h6, hocc, hd, hp, hfits]

/-! The claims. -/

/-- C10: the admin gate accepts a live token presented bare, without the
`Bearer ` prefix: extraction leaves a hex token (the alphabet `generarToken`
produces) unchanged, so a header equal to the token itself passes. -/
theorem validarToken_accepts_bare_token (tokens : List String) (t : String)
    (ht : t ∈ tokens) (hhex : isHexString t = true) :
    extractToken t = t ∧ validarToken tokens (some t) = true := by
  refine ⟨extractToken_eq_self hhex, ?_⟩
  show tokens.contains (extractToken t) = true
  rw [extractToken_eq_self hhex]
  simpa using ht

/-- Witness for C10 at the concrete token "deadbeef". -/
theorem validarToken_accepts_bare_token_witness :
    extractToken "deadbeef" = "deadbeef" ∧
    validarToken ["deadbeef"] (some "deadbeef") = true :=
  validarToken_accepts_bare_token ["deadbeef"] "deadbeef" (by simp) (by decide)

/-- C3: for non-empty `cancha` and `fecha`, the availability query returns
exactly the horarios of the stored reservations matching them whose estado is
not 'cancelada', in store order with duplicates preserved, and performs no
write (the store comes back unchanged). -/
theorem disponibilidad_spec (db : DB) (c f : String)
    (hc : c ≠ "") (hf : f ≠ "") :
    disponibilidad db (some c) (some f) =
      (.ok ((db.reservas.filter fun r =>
        decide (r.cancha = c ∧ r.fecha = f ∧ r.estado ≠ "cancelada")).map
        (·.horario)), db) := by
  have hfc : falsy (some c) = false := by simp [falsy, hc]
  have hff : falsy (some f) = false := by simp [falsy, hf]
  rw [disponibilidad, hfc, hff]
  simp only [Bool.or_self, Bool.false_eq_true, if_false, Option.getD_some]
  congr 2
  rw [occupiedList]
  congr 1
  refine List.filter_congr fun r _ => ?_
  by_cases h1 : r.cancha = c <;> by_cases h2 : r.fecha = f <;>
    by_cases h3 : r.estado = "cancelada" <;> simp [h1, h2, h3]

/-- Witness for C3 on a store with duplicate rows and a cancelled row:
the duplicates are kept, the cancelled slot and other canchas are not. -/
theorem disponibilidad_spec_witness :
    disponibilidad dbDup (some "C") (some "F") =
      (.ok ["18:00", "18:00"], dbDup) := by
  have h := disponibilidad_spec dbDup "C" "F" (by decide) (by decide)
  rw [h]
  decide

/-- C4: the admin cancellation core always answers success; every stored row
with the given id ends with estado 'cancelada'; if no row has the id the store
is unchanged; and cancelling the same id twice equals cancelling it once. -/
theorem cancelarCore_spec (db : DB) (id : Nat) :
    (cancelarCore db id).1 = .ok () ∧
    (∀ r ∈ (cancelarCore db id).2.reservas, r.id = id →
      r.estado = "cancelada") ∧
    ((∀ r ∈ db.reservas, r.id ≠ id) → (cancelarCore db id).2 = db) ∧
    cancelarCore (cancelarCore db id).2 id = cancelarCore db id := by
  refine ⟨rfl, ?_, ?_, ?_⟩
  · intro r hr hid
    simp only [cancelarCore, List.mem_map] at hr
    obtain ⟨r₀, _, rfl⟩ := hr
    by_cases h : r₀.id == id
    · simp [h]
    · simp only [h, Bool.false_eq_true, if_false] at hid ⊢
      exact absurd hid (by simpa using h)
  · intro h
    have hmap : (db.reservas.map fun r =>
        if r.id == id then { r with estado := "cancelada" } else r) =
        db.reservas :=
      map_if_eq_self fun r hr => by simpa using h r hr
    simp only [cancelarCore, hmap]
  · simp [cancelarCore, cancelState_idem]
    intro a _ h
    by_cases hc : a.id = id
    · simp [hc]
    · simp [hc] at h

/-- Witness for C4: instantiation at the one-row store and id 1. -/
theorem cancelarCore_spec_witness :
    (cancelarCore dbOcc 1).1 = .ok () ∧
    (∀ r ∈ (cancelarCore dbOcc 1).2.reservas, r.id = 1 →
      r.estado = "cancelada") ∧
    ((∀ r ∈ dbOcc.reservas, r.id ≠ 1) → (cancelarCore dbOcc 1).2 = dbOcc) ∧
    cancelarCore (cancelarCore dbOcc 1).2 1 = cancelarCore dbOcc 1 :=
  cancelarCore_spec dbOcc 1

/-- C5: when the authorization header, stripped of `Bearer ` and trimmed,
is not in the live token set, every admin-gated operation (price update,
cancellation, reservation listing) answers 401 and leaves the store
unchanged. -/
theorem admin_gate_unauthorized (tokens : List String) (auth : Option String)
    (db : DB) (c : Option String) (p : Option Int) (now id : Nat)
    (h : extractToken (auth.getD "") ∉ tokens) :
    setPrecio tokens auth db c p now = (.unauthorized, db) ∧
    cancelar tokens auth db id = (.unauthorized, db) ∧
    getReservas tokens auth db = (.unauthorized, db) := by
  have hv : validarToken tokens auth = false := by
    simpa [validarToken] using h
  simp [setPrecio, cancelar, getReservas, requireAdmin, hv]

/-- Witness for C5 with an empty token set and an unknown bearer token. -/
theorem admin_gate_unauthorized_witness :
    setPrecio [] (some "zzz") dbPrecios (some "Pádel 1") (some 9000) 5 =
      (.unauthorized, dbPrecios) ∧
    cancelar [] (some "zzz") dbPrecios 1 = (.unauthorized, dbPrecios) ∧
    getReservas [] (some "zzz") dbPrecios = (.unauthorized, dbPrecios) :=
  admin_gate_unauthorized [] (some "zzz") dbPrecios (some "Pádel 1")
    (some 9000) 5 1 (by simp)

/-- C1 counterexample: a request targeting the already-occupied slot
("C", "F", "H") but with `nombre` absent answers 400, not 409, so the claim
as universally stated over all requests fails. -/
theorem reservar_occupied_counterexample :
    slotOccupied dbOcc "C" "F" "H" = true ∧
    (reservar dbOcc reqNoNombre 0 false false).res = .badRequest ∧
    (reservar dbOcc reqNoNombre 0 false false).res ≠ .conflict := by
  decide

/-- C1 (amended): every reservation request that passes the required-field
validation and targets a slot held by a non-cancelled stored reservation
answers 409 Conflict, leaves the store unchanged and fires no webhook. -/
theorem reservar_conflict_of_occupied (db : DB) (req : ReservarReq)
    (now : Nat) (wc wf : Bool)
    (hv : (falsy req.nombre || falsy req.apellido || falsy req.whatsapp ||
      falsy req.cancha || falsy req.fecha || falsy req.horario) = false)
    (hocc : slotOccupied db (req.cancha.getD "") (req.fecha.getD "")
      (req.horario.getD "") = true) :
    reservar db req now wc wf = ⟨.conflict, db, []⟩ := by
  simp only [Bool.or_eq_false_iff] at hv
  obtain ⟨⟨⟨⟨⟨h1, h2⟩, h3⟩, h4⟩, h5⟩, h6⟩ := hv
  simp [reservar, h1, h2, h3, h4, h5, h6, hocc]

/-- Witness for C1 (amended) at the occupied store and a full request. -/
theorem reservar_conflict_of_occupied_witness :
    reservar dbOcc reqFull 3 true false = ⟨.conflict, dbOcc, []⟩ :=
  reservar_conflict_of_occupied dbOcc reqFull 3 true false (by decide)
    (by decide)

/-- C2 counterexample: a request with the six validated fields non-empty and
a free slot, but no `deporte`, answers 500 instead of success, so the claim
as stated over all such requests fails. -/
theorem reservar_free_slot_counterexample :
    (falsy reqNoDeporte.nombre || falsy reqNoDeporte.apellido ||
      falsy reqNoDeporte.whatsapp || falsy reqNoDeporte.cancha ||
      falsy reqNoDeporte.fecha || falsy reqNoDeporte.horario) = false ∧
    slotOccupied dbEmpty "C" "F" "H" = false ∧
    (reservar dbEmpty reqNoDeporte 0 false false).res = .internalError ∧
    ∀ id, (reservar dbEmpty reqNoDeporte 0 false false).res ≠ .ok id := by
  refine ⟨by decide, by decide, by decide, fun id h => ?_⟩
  rw [show (reservar dbEmpty reqNoDeporte 0 false false).res = .internalError
    from by decide] at h
  exact ApiRes.noConfusion h

/-- C2 (amended): a reservation request whose six required fields are
non-empty, whose `deporte` and `precio` are present, whose values fit the
column bounds of the schema and whose slot is free answers success with the
new id, and the availability query on the resulting store for that cancha and
fecha lists the booked horario. -/
theorem reservar_free_slot_success (db : DB) (req : ReservarReq) (now : Nat)
    (wc wf : Bool) (d : String) (p : Int)
    (hv : (falsy req.nombre || falsy req.apellido || falsy req.whatsapp ||
      falsy req.cancha || falsy req.fecha || falsy req.horario) = false)
    (hocc : slotOccupied db (req.cancha.getD "") (req.fecha.getD "")
      (req.horario.getD "") = false)
    (hd : req.deporte = some d) (hp : req.precio = some p)
    (hfits : fitsColumns req d p = true) :
    (reservar db req now wc wf).res = .ok db.nextId ∧
    (disponibilidad (reservar db req now wc wf).db req.cancha req.fecha).1 =
      .ok (occupiedList (reservar db req now wc wf).db (req.cancha.getD "")
        (req.fecha.getD "")) ∧
    req.horario.getD "" ∈ occupiedList (reservar db req now wc wf).db
      (req.cancha.getD "") (req.fecha.getD "") := by
  have hc : falsy req.cancha = false := by
    simp only [Bool.or_eq_false_iff] at hv
    exact hv.1.1.2
  have hf : falsy req.fecha = false := by
    simp only [Bool.or_eq_false_iff] at hv
    exact hv.1.2
  rw [reservar_insert_eq db req now wc wf d p hv hocc hd hp hfits]
  refine ⟨rfl, ?_, ?_⟩
  · simp [disponibilidad, hc, hf]
  · simp [occupiedList, newRow, List.filter_append]

/-- Witness for C2 (amended) at the empty store and a full request. -/
theorem reservar_free_slot_success_witness :
    (reservar dbEmpty reqFull 0 false false).res = .ok dbEmpty.nextId ∧
    (disponibilidad (reservar dbEmpty reqFull 0 false false).db
      reqFull.cancha reqFull.fecha).1 =
      .ok (occupiedList (reservar dbEmpty reqFull 0 false false).db
        (reqFull.cancha.getD "") (reqFull.fecha.getD "")) ∧
    reqFull.horario.getD "" ∈
      occupiedList (reservar dbEmpty reqFull 0 false false).db
        (reqFull.cancha.getD "") (reqFull.fecha.getD "") :=
  reservar_free_slot_success dbEmpty reqFull 0 false false "futbol" 100
    (by decide) (by decide) rfl rfl (by decide)

/-- C6 counterexample: with a valid admin token, a request whose `cancha` is
present but empty and whose `precio` is present answers 400, although neither
argument is absent; so "BadRequest exactly when an argument is absent" fails
(the `cancha` check is a truthiness check). -/
theorem setPrecio_badRequest_counterexample :
    (setPrecio ["t0"] (some "t0") dbPrecios (some "") (some 5) 0).1 =
      .badRequest ∧
    ¬((some "" : Option String) = none ∨ (some (5 : Int) : Option Int) =
      none) := by
  refine ⟨by decide, by simp⟩

/-- C6 (amended): with a valid admin token, the price update answers 400
exactly when `cancha` is absent or empty (falsy) or `precio` is absent; in
particular a present non-empty `cancha` with `precio` equal to 0 is not
rejected. -/
theorem setPrecio_badRequest_iff (tokens : List String) (auth : Option String)
    (db : DB) (c : Option String) (p : Option Int) (now : Nat)
    (hv : validarToken tokens auth = true) :
    ((setPrecio tokens auth db c p now).1 = .badRequest ↔
      (falsy c = true ∨ p = none)) ∧
    ∀ s : String, s ≠ "" →
      (setPrecio tokens auth db (some s) (some 0) now).1 ≠ .badRequest := by
  constructor
  · cases hfc : falsy c <;> rcases p with _ | v <;>
      simp [setPrecio, requireAdmin, hv, setPrecioCore, hfc]
  · intro s hs
    simp [setPrecio, requireAdmin, hv, setPrecioCore, falsy, hs]

/-- Witness for C6 (amended): at a valid token, a named cancha and price 0
the update is not a BadRequest, and the BadRequest condition matches. -/
theorem setPrecio_badRequest_iff_witness :
    ((setPrecio ["t0"] (some "t0") dbPrecios (some "Pádel 1") (some 0) 7).1 =
      .badRequest ↔
      (falsy (some "Pádel 1") = true ∨ (some (0 : Int) : Option Int) =
        none)) ∧
    ∀ s : String, s ≠ "" →
      (setPrecio ["t0"] (some "t0") dbPrecios (some s) (some 0) 7).1 ≠
        .badRequest :=
  setPrecio_badRequest_iff ["t0"] (some "t0") dbPrecios (some "Pádel 1")
    (some 0) 7 (by decide)

/-- C7: an authenticated price update naming a (non-empty) cancha that has no
row in the precios table answers success and leaves the store unchanged: no
row is created and no existing row is touched. -/
theorem setPrecio_unknown_cancha_noop (tokens : List String)
    (auth : Option String) (db : DB) (c : String) (p : Int) (now : Nat)
    (hv : validarToken tokens auth = true) (hc : c ≠ "")
    (hnone : ∀ r ∈ db.precios, r.cancha ≠ c) :
    setPrecio tokens auth db (some c) (some p) now = (.ok (), db) := by
  have hcond : (falsy (some c) || (some p : Option Int).isNone) = false := by
    simp [falsy, hc]
  have hmap : (db.precios.map fun r =>
      if r.cancha == c then { r with precio := p, actualizado := now }
      else r) = db.precios :=
    map_if_eq_self fun r hr => by simpa using hnone r hr
  simp only [setPrecio, requireAdmin, hv, if_true, setPrecioCore, hcond,
    Bool.false_eq_true, if_false, Option.getD_some, hmap]

/-- Witness for C7 at a store whose only price row is another cancha. -/
theorem setPrecio_unknown_cancha_noop_witness :
    setPrecio ["t0"] (some "t0") dbPrecios (some "Cancha 9") (some 1) 7 =
      (.ok (), dbPrecios) :=
  setPrecio_unknown_cancha_noop ["t0"] (some "t0") dbPrecios "Cancha 9" 1 7
    (by decide) (by decide) (by decide)

/-- C8: once the insert is reached and succeeds (fields validated, slot free,
`deporte` and `precio` present and every value within its column's bounds),
the response is success with the new id whatever the webhook outcome: a
failing webhook changes neither the response nor the stored rows (the
inserted row stays), and at most one webhook attempt is made (no retry). -/
theorem reservar_webhook_independent (db : DB) (req : ReservarReq)
    (now : Nat) (wc : Bool) (d : String) (p : Int)
    (hv : (falsy req.nombre || falsy req.apellido || falsy req.whatsapp ||
      falsy req.cancha || falsy req.fecha || falsy req.horario) = false)
    (hocc : slotOccupied db (req.cancha.getD "") (req.fecha.getD "")
      (req.horario.getD "") = false)
    (hd : req.deporte = some d) (hp : req.precio = some p)
    (hfits : fitsColumns req d p = true) :
    (reservar db req now wc true).res = .ok db.nextId ∧
    (reservar db req now wc true).res = (reservar db req now wc false).res ∧
    (reservar db req now wc true).db = (reservar db req now wc false).db ∧
    newRow db req now d p ∈ (reservar db req now wc true).db.reservas ∧
    (reservar db req now wc true).webhookAttempts.length ≤ 1 := by
  rw [reservar_insert_eq db req now wc true d p hv hocc hd hp hfits,
    reservar_insert_eq db req now wc false d p hv hocc hd hp hfits]
  refine ⟨rfl, rfl, rfl, by simp, ?_⟩
  cases wc <;> simp

/-- Witness for C8 at the empty store and a full request with the webhook
configured. -/
theorem reservar_webhook_independent_witness :
    (reservar dbEmpty reqFull 0 true true).res = .ok dbEmpty.nextId ∧
    (reservar dbEmpty reqFull 0 true true).res =
      (reservar dbEmpty reqFull 0 true false).res ∧
    (reservar dbEmpty reqFull 0 true true).db =
      (reservar dbEmpty reqFull 0 true false).db ∧
    newRow dbEmpty reqFull 0 "futbol" 100 ∈
      (reservar dbEmpty reqFull 0 true true).db.reservas ∧
    (reservar dbEmpty reqFull 0 true true).webhookAttempts.length ≤ 1 :=
  reservar_webhook_independent dbEmpty reqFull 0 true "futbol" 100
    (by decide) (by decide) rfl rfl (by decide)

/-- C9: a request whose six validated fields are non-empty but whose
`deporte` is absent passes validation, and when its slot is free the insert
violates the NOT NULL `deporte` column, so the operation answers 500 and no
row is created (the store comes back unchanged, with no webhook attempt). -/
theorem reservar_missing_deporte_500 (db : DB) (req : ReservarReq)
    (now : Nat) (wc wf : Bool)
    (hv : (falsy req.nombre || falsy req.apellido || falsy req.whatsapp ||
      falsy req.cancha || falsy req.fecha || falsy req.horario) = false)
    (hocc : slotOccupied db (req.cancha.getD "") (req.fecha.getD "")
      (req.horario.getD "") = false)
    (hd : req.deporte = none) :
    reservar db req now wc wf = ⟨.internalError, db, []⟩ := by
  simp only [Bool.or_eq_false_iff] at hv
  obtain ⟨⟨⟨⟨⟨h1, h2⟩, h3⟩, h4⟩, h5⟩, h6⟩ := hv
  cases hp : req.precio <;>
    simp [reservar, h1, h2, h3, h4, h5, h6, hocc, hd, hp]

/-- Witness for C9 at the empty store and the request lacking `deporte`. -/
theorem reservar_missing_deporte_500_witness :
    reservar dbEmpty reqNoDeporte 2 true true = ⟨.internalError, dbEmpty, []⟩ :=
  reservar_missing_deporte_500 dbEmpty reqNoDeporte 2 true true (by decide)
    (by decide) rfl

end Reserva
